import Mathlib

/-!
Verification development for the multi-agent ITSM server
(`multi_agent_system.py`, with the near-duplicate variant in `test.py`).

The Python code is shallowly embedded: free text is modelled as its list of
characters (`List Char`), Python dicts keyed by ticket id as association
lists, `datetime.now()` as an explicit `DateTime` argument, and the file
system behind `TicketManager` as an in-state association list.  Exceptions
that escape a handler are modelled by `PyResult.exn`.
-/

/- ## Text utilities -/

/-- Models the Python prefix test used by substring search: `needle` is a
prefix of the second list. -/
def pfx : List Char → List Char → Bool
  | [], _ => true
  | _ :: _, [] => false
  | a :: xs, b :: ys => a == b && pfx xs ys

/-- Models the Python substring test `needle in hay` on strings. -/
def containsSub : List Char → List Char → Bool
  | [], needle => pfx needle []
  | c :: t, needle => pfx needle (c :: t) || containsSub t needle

/-- Models `str.lower()` (ASCII case folding, which covers every configured
keyword and indicator). -/
def lowerStr (t : List Char) : List Char := t.map Char.toLower

/-- Models the `\s` character class of the `re` module (ASCII range). -/
def isWs (c : Char) : Bool :=
  c = ' ' || c = '\t' || c = '\n' || c = '\r' || c = '\x0b' || c = '\x0c'

/- ## Regex combinators

The five error patterns of `IssueDetectionAgent.detect_issue`
(`multi_agent_system.py` lines 413-419) are sequences of literal pieces,
`\s*` and a trailing `.*`.  Each combinator matches its piece at the start
of the list and hands the rest to the continuation, so a composed matcher
decides whether the whole pattern matches at a given position. -/

/-- Matches `\s*` then continues: zero or more whitespace characters. -/
def wsStarThen (k : List Char → Bool) : List Char → Bool
  | [] => k []
  | c :: t => k (c :: t) || (isWs c && wsStarThen k t)

/-- Matches `.*` then continues (`.` excludes the newline, as in `re`
without DOTALL). -/
def dotStarThen (k : List Char → Bool) : List Char → Bool
  | [] => k []
  | c :: t => k (c :: t) || (!(c == '\n') && dotStarThen k t)

/-- Matches a literal piece then continues. -/
def litThen (s : List Char) (k : List Char → Bool) (t : List Char) : Bool :=
  pfx s t && k (t.drop s.length)

/-- End of pattern: nothing left to require. -/
def patEnd : List Char → Bool := fun _ => true

/-- Models `re.search`: the pattern matches at some position of the text. -/
def reSearch (m : List Char → Bool) : List Char → Bool
  | [] => m []
  | c :: t => m (c :: t) || reSearch m t

/-- The regex `error\s*:\s*.*` matched at a position. -/
def matchErrorColon : List Char → Bool :=
  litThen "error".data (wsStarThen (litThen ":".data (wsStarThen (dotStarThen patEnd))))

/-- The regex `exception\s*:\s*.*` matched at a position. -/
def matchExceptionColon : List Char → Bool :=
  litThen "exception".data (wsStarThen (litThen ":".data (wsStarThen (dotStarThen patEnd))))

/-- The regex `failed\s*to\s*.*` matched at a position. -/
def matchFailedTo : List Char → Bool :=
  litThen "failed".data (wsStarThen (litThen "to".data (wsStarThen (dotStarThen patEnd))))

/-- The regex `cannot\s*.*` matched at a position. -/
def matchCannot : List Char → Bool :=
  litThen "cannot".data (wsStarThen (dotStarThen patEnd))

/-- The regex `unable\s*to\s*.*` matched at a position. -/
def matchUnableTo : List Char → Bool :=
  litThen "unable".data (wsStarThen (litThen "to".data (wsStarThen (dotStarThen patEnd))))

/-- The `error_patterns` list of `detect_issue` (lines 413-419), in source
order. -/
def error_patterns : List (List Char → Bool) :=
  [matchErrorColon, matchExceptionColon, matchFailedTo, matchCannot, matchUnableTo]

/- ## Issue Detection Agent configuration (lines 371-384) -/

/-- `self.issue_keywords` of `IssueDetectionAgent.__init__`. -/
def issue_keywords : List (List Char) :=
  ["error".data, "bug".data, "crash".data, "fail".data, "broken".data,
   "not working".data, "help".data, "problem".data, "issue".data,
   "fatal".data, "exception".data, "down".data, "doesn\x27t work".data,
   "malfunction".data, "glitch".data, "fault".data, "defect".data,
   "urgent".data, "emergency".data, "critical".data, "fix".data,
   "repair".data, "unresponsive".data, "freeze".data, "hang".data,
   "timeout".data]

/-- `self.severity_indicators["high"]`. -/
def severity_high : List (List Char) :=
  ["urgent".data, "critical".data, "emergency".data, "fatal".data,
   "immediately".data, "security".data, "breach".data, "data loss".data]

/-- `self.severity_indicators["medium"]`. -/
def severity_medium : List (List Char) :=
  ["important".data, "significant".data, "moderate".data, "soon".data,
   "affecting".data, "performance".data]

/-- `self.severity_indicators["low"]` (empty in the source). -/
def severity_low : List (List Char) := []

/-- `IssueDetectionAgent.detect_issue` (lines 403-425): lower-case the text,
scan the keywords, then the error patterns. -/
def detect_issue (text : List Char) : Bool :=
  let t := lowerStr text
  issue_keywords.any (fun k => containsSub t k)
    || error_patterns.any (fun m => reSearch m t)

/-- `IssueDetectionAgent.determine_importance` (lines 386-401). -/
def determine_importance (text : List Char) : String :=
  let t := lowerStr text
  if severity_high.any (fun k => containsSub t k) then "critical"
  else if severity_medium.any (fun k => containsSub t k) then "high"
  else "medium"

/-- The synthesized issue string of `IssueDetectionAgent.process` (line 435):
`f"Auto-detected issue: {text[:200]}" + ("..." if len(text) > 200 else "")`. -/
def format_issue (text : List Char) : String :=
  "Auto-detected issue: " ++ String.mk (text.take 200)
    ++ (if 200 < text.length then "..." else "")

/-- `IssueDetectionAgent.process` (lines 427-445): `some (issue, importance)`
when `issue_detected` is true, `none` otherwise.  The agent's own
invocation-log append is the `add_to_memory` operation modelled below. -/
def issue_process (text : List Char) : Option (String × String) :=
  if detect_issue text then some (format_issue text, determine_importance text)
  else none

/- ## Time stamps -/

/-- One instant of `datetime.now()`. -/
structure DateTime where
  year : Nat
  month : Nat
  day : Nat
  hour : Nat
  minute : Nat
  second : Nat
  microsecond : Nat
deriving DecidableEq

/-- Zero-padded decimal rendering, as produced by `strftime` fields. -/
def padNum (w n : Nat) : String :=
  let s := toString n
  String.mk (List.replicate (w - s.length) '0') ++ s

/-- `datetime.strftime('%Y%m%d%H%M%S')`: second granularity, the
microsecond field is not rendered. -/
def strftimeYmdHMS (d : DateTime) : String :=
  padNum 4 d.year ++ padNum 2 d.month ++ padNum 2 d.day
    ++ padNum 2 d.hour ++ padNum 2 d.minute ++ padNum 2 d.second

/-- `datetime.isoformat()` (fractional part omitted when the microsecond is
zero, as in CPython). -/
def isoformat (d : DateTime) : String :=
  padNum 4 d.year ++ "-" ++ padNum 2 d.month ++ "-" ++ padNum 2 d.day
    ++ "T" ++ padNum 2 d.hour ++ ":" ++ padNum 2 d.minute
    ++ ":" ++ padNum 2 d.second
    ++ (if d.microsecond = 0 then "" else "." ++ padNum 6 d.microsecond)

/-- The id generated by `Ticket.__init__` (line 37):
`f"ticket_{datetime.now().strftime('%Y%m%d%H%M%S')}"`. -/
def mkTicketId (d : DateTime) : String := "ticket_" ++ strftimeYmdHMS d

/- ## Ticket data model (lines 24-51) -/

/-- The `Ticket` pydantic model. -/
structure Ticket where
  ticket_id : String
  issue : String
  importance : String
  status : String
  time : String
  ip : String
  auto_generated : Bool
  created_at : String
deriving DecidableEq

/-- The ticket built by `TicketAgent.process` on `action == 'create'`
(lines 299-305) together with `Ticket.__init__` (lines 34-39): id from
`strftime`, `status = "open"`, `time` and `created_at` from `isoformat`.
The three `datetime.now()` calls of that code path are modelled as one
instant `now`. -/
def buildTicket (now : DateTime) (issue importance ip : String)
    (auto : Bool) : Ticket :=
  ⟨mkTicketId now, issue, importance, "open", isoformat now, ip, auto,
   isoformat now⟩

/- ## JSON rendering (models `json.dumps` on these flat dicts) -/

/-- Escapes the characters `json.dumps` escapes in the strings appearing
here (backslash, quote, and ASCII control whitespace). -/
def jsonEscape (s : String) : String :=
  String.mk (s.data.foldr (fun c acc =>
    if c = '\\' then '\\' :: '\\' :: acc
    else if c = '"' then '\\' :: '"' :: acc
    else if c = '\n' then '\\' :: 'n' :: acc
    else if c = '\t' then '\\' :: 't' :: acc
    else if c = '\r' then '\\' :: 'r' :: acc
    else c :: acc) [])

/-- A JSON string literal. -/
def jsonStr (s : String) : String := "\"" ++ jsonEscape s ++ "\""

/-- A JSON boolean. -/
def jsonBool (b : Bool) : String := if b then "true" else "false"

/-- `json.dumps(ticket.dict())` with the key order of `Ticket.dict`
(lines 41-51) and the default separators. -/
def ticketToJson (t : Ticket) : String :=
  "\x7b" ++ "\"ticket_id\": " ++ jsonStr t.ticket_id
    ++ ", \"issue\": " ++ jsonStr t.issue
    ++ ", \"importance\": " ++ jsonStr t.importance
    ++ ", \"status\": " ++ jsonStr t.status
    ++ ", \"time\": " ++ jsonStr t.time
    ++ ", \"ip\": " ++ jsonStr t.ip
    ++ ", \"auto_generated\": " ++ jsonBool t.auto_generated
    ++ ", \"created_at\": " ++ jsonStr t.created_at
    ++ "\x7d"

/-- `json.dumps([t.dict() for t in ts])`. -/
def jsonTicketList (ts : List Ticket) : String :=
  "[" ++ String.intercalate ", " (ts.map ticketToJson) ++ "]"

/- ## Association lists: Python dicts keyed by ticket id, and the
`ticket_storage` directory of `TicketManager` (one record per id) -/

/-- Dict/store lookup. -/
def lookupA : List (String × Ticket) → String → Option Ticket
  | [], _ => none
  | (k, v) :: t, key => if k = key then some v else lookupA t key

/-- Dict assignment / file overwrite: replace in place, else append. -/
def insertA (key : String) (v : Ticket) :
    List (String × Ticket) → List (String × Ticket)
  | [] => [(key, v)]
  | (k, w) :: t => if k = key then (key, v) :: t else (k, w) :: insertA key v t

/-- `del` / `os.remove`: drop the binding of `key`. -/
def eraseA (key : String) : List (String × Ticket) → List (String × Ticket)
  | [] => []
  | (k, w) :: t => if k = key then t else (k, w) :: eraseA key t

/-- Lexicographic strict order on character lists (string comparison used
when sorting the ticket file names). -/
def chListLt : List Char → List Char → Bool
  | [], [] => false
  | [], _ :: _ => true
  | _ :: _, [] => false
  | a :: xs, b :: ys =>
      Nat.blt a.toNat b.toNat || (a == b && chListLt xs ys)

/-- Insert into a descending-sorted list (stable). -/
def insertDesc (x : String × Ticket) :
    List (String × Ticket) → List (String × Ticket)
  | [] => [x]
  | y :: ys =>
      if chListLt x.1.data y.1.data then y :: insertDesc x ys else x :: y :: ys

/-- `ticket_files.sort(reverse=True)` of `TicketManager.list_tickets`
(line 96): newest (largest timestamp id) first. -/
def sortDesc : List (String × Ticket) → List (String × Ticket)
  | [] => []
  | x :: xs => insertDesc x (sortDesc xs)

/-- `TicketManager.list_tickets` (lines 88-111): sort descending, then the
slice `[offset : offset + limit]`. -/
def listStored (store : List (String × Ticket)) (lim off : Nat) : List Ticket :=
  (((sortDesc store).drop off).take lim).map Prod.snd

/-- `TicketManager.search_tickets` (lines 126-147): case-insensitive
substring match of the query against the serialized record. -/
def searchStore (store : List (String × Ticket)) (q : String) : List Ticket :=
  (store.filter (fun kv =>
    containsSub (lowerStr (ticketToJson kv.2).data) (lowerStr q.data))).map
    Prod.snd

/- ## Agent memory (lines 151-171, and the `test.py` variant lines 48-66) -/

/-- The auto-ticket payload built by `CoordinatorAgent.process`
(lines 481-486). -/
structure AutoTicket where
  created : Bool
  message : String
  issue : String
  importance : String
deriving DecidableEq

/-- The `data` payloads appended to agent memory logs in the source. -/
inductive MemData where
  | ticket_created (ticket_id : String)
  | ticket_deleted (ticket_id : String)
  | issue_detected (issue importance : String)
  | coordination (query_type response : String) (auto_ticket : Option AutoTicket)
  | vision_analysis (result : String)
  | text_analysis (result : String)
deriving DecidableEq

/-- One memory record `{"timestamp": ..., "data": ...}`. -/
structure MemEntry where
  timestamp : String
  data : MemData
deriving DecidableEq

/-- `Agent.add_to_memory` of `multi_agent_system.py` (lines 158-167):
append, then keep the last 100 entries when the log exceeds 100
(`self.memory = self.memory[-100:]`). -/
def add_to_memory (now : String) (memory : List MemEntry) (d : MemData) :
    List MemEntry :=
  let m := memory ++ [MemEntry.mk now d]
  if 100 < m.length then m.drop (m.length - 100) else m

/-- `Agent.add_to_memory` of `test.py` (lines 60-62): a plain append with no
timestamp wrapper and no bound. -/
def test_add_to_memory (memory : List MemData) (d : MemData) : List MemData :=
  memory ++ [d]

/-- A sequence of `add_to_memory` calls on a fresh log, each with its
timestamp. -/
def run_add_to_memory (pairs : List (String × MemData)) : List MemEntry :=
  pairs.foldl (fun m p => add_to_memory p.1 m p.2) []

/-- A sequence of `test.py` `add_to_memory` calls on a fresh log. -/
def run_test_add_to_memory (ds : List MemData) : List MemData :=
  ds.foldl test_add_to_memory []

/- ## Ticket Agent (lines 281-361) -/

/-- The mutable state of `TicketAgent`: the in-memory dict `self.tickets`,
the persistent `ticket_storage` contents, and the agent's memory log. -/
structure AgentState where
  tickets : List (String × Ticket)
  store : List (String × Ticket)
  memory : List MemEntry
deriving DecidableEq

/-- Environment of one `TicketAgent.process` call: the current instant and
whether the file write inside `TicketManager.save_ticket` succeeds
(`save_ticket` returns `False` on an I/O exception, lines 63-72). -/
structure TicketEnv where
  now : DateTime
  saveOk : Bool
deriving DecidableEq

/-- The `input_data` dict of `TicketAgent.process`; every field is read
with `.get` except `issue`, `importance` and `ip`, which `create` indexes
directly (lines 300-303). -/
structure TicketInput where
  action : Option String
  issue : Option String
  importance : Option String
  ip : Option String
  auto_generated : Option Bool
  ticket_id : Option String
  query : Option String
  limit : Option Nat
  offset : Option Nat
deriving DecidableEq

/-- A Python call result: a value, or an uncaught exception. -/
inductive PyResult (α : Type) where
  | ok : α → PyResult α
  | exn : String → PyResult α
deriving DecidableEq

/-- `TicketAgent.process` (lines 294-361).  `action` defaults to
`'create'`; a missing `ticket_id` is formatted as the string `"None"` by
the f-strings and can match nothing.  `create` ignores the boolean result
of `save_ticket`; on a failed save the store is unchanged but the success
string is still returned. -/
def ticket_process (env : TicketEnv) (st : AgentState) (inp : TicketInput) :
    PyResult (AgentState × String) :=
  let action := inp.action.getD "create"
  if action = "create" then
    match inp.issue, inp.importance, inp.ip with
    | some iss, some imp, some ipv =>
      let t := buildTicket env.now iss imp ipv (inp.auto_generated.getD false)
      PyResult.ok
        (⟨insertA t.ticket_id t st.tickets,
          if env.saveOk then insertA t.ticket_id t st.store else st.store,
          add_to_memory (isoformat env.now) st.memory
            (MemData.ticket_created t.ticket_id)⟩,
         "Ticket created successfully. Ticket ID: " ++ t.ticket_id)
    | _, _, _ => PyResult.exn "KeyError"
  else if action = "list" then
    PyResult.ok (st, jsonTicketList
      (listStored st.store (inp.limit.getD 100) (inp.offset.getD 0)))
  else if action = "get" then
    let tid := inp.ticket_id.getD "None"
    match lookupA st.tickets tid with
    | some t => PyResult.ok (st, ticketToJson t)
    | none =>
      match lookupA st.store tid with
      | some t =>
          PyResult.ok (⟨insertA tid t st.tickets, st.store, st.memory⟩,
            ticketToJson t)
      | none => PyResult.ok (st, "Ticket not found")
  else if action = "delete" then
    let tid := inp.ticket_id.getD "None"
    match lookupA st.tickets tid with
    | some _ =>
      let tickets1 := eraseA tid st.tickets
      match lookupA st.store tid with
      | some _ =>
          PyResult.ok (⟨tickets1, eraseA tid st.store,
            add_to_memory (isoformat env.now) st.memory
              (MemData.ticket_deleted tid)⟩,
            "Ticket " ++ tid ++ " deleted successfully")
      | none =>
          PyResult.ok (⟨tickets1, st.store, st.memory⟩,
            "Error deleting ticket " ++ tid ++ " from storage")
    | none =>
      match lookupA st.store tid with
      | some _ =>
          PyResult.ok (⟨st.tickets, eraseA tid st.store,
            add_to_memory (isoformat env.now) st.memory
              (MemData.ticket_deleted tid)⟩,
            "Ticket " ++ tid ++ " deleted successfully")
      | none => PyResult.ok (st, "Ticket not found")
  else if action = "search" then
    let q := inp.query.getD ""
    if q = "" then PyResult.ok (st, "Search query is required")
    else PyResult.ok (st, jsonTicketList (searchStore st.store q))
  else PyResult.ok (st, "Invalid action")

/-- Message projection of a `ticket_process` result. -/
def procMsg (r : PyResult (AgentState × String)) : Option String :=
  match r with
  | PyResult.ok (_, m) => some m
  | PyResult.exn _ => none

/-- Store projection of a `ticket_process` result. -/
def procStore (r : PyResult (AgentState × String)) :
    Option (List (String × Ticket)) :=
  match r with
  | PyResult.ok (s, _) => some s.store
  | PyResult.exn _ => none

/-- Store lookup in the state of a `ticket_process` result. -/
def procStoreLookup (r : PyResult (AgentState × String)) (tid : String) :
    Option (Option Ticket) :=
  match r with
  | PyResult.ok (s, _) => some (lookupA s.store tid)
  | PyResult.exn _ => none

/- ## Coordinator Agent (lines 448-535) -/

/-- Environment of one coordinator call: the instant, the store behavior,
and the opaque inference capability (the strings the Text and Vision
handlers return, lines 184-278 — an error there already surfaces as an
error string, never as an exception). -/
structure CoordEnv where
  now : DateTime
  saveOk : Bool
  textResponse : String
  visionResponse : String
deriving DecidableEq

/-- The coordinator's `input_data` dict; image bytes are opaque. -/
structure CoordInput where
  type : Option String
  prompt : Option String
  ip : Option String
  image_data : Option String
  action : Option String
  issue : Option String
  importance : Option String
  auto_generated : Option Bool
  ticket_id : Option String
  query : Option String
  limit : Option Nat
  offset : Option Nat
deriving DecidableEq

/-- What `CoordinatorAgent.process` produces when no exception escapes:
the ticket agent state, the coordinator's own memory log, the `response`
string (also mirrored as `result` in the source) and the optional
`auto_ticket` payload (the key is present exactly when this is `some`). -/
structure CoordOutcome where
  ticketSt : AgentState
  coordMem : List MemEntry
  response : String
  auto_ticket : Option AutoTicket
deriving DecidableEq

/-- Passing the coordinator's raw `input_data` on to `TicketAgent.process`
in the fan-out branch (line 504). -/
def toTicketInput (inp : CoordInput) : TicketInput :=
  ⟨inp.action, inp.issue, inp.importance, inp.ip, inp.auto_generated,
   inp.ticket_id, inp.query, inp.limit, inp.offset⟩

/-- The issue-detection side channel of `CoordinatorAgent.process`
(lines 464-486): run the Issue Detection Agent over the prompt and, on
detection, synchronously invoke the Ticket Agent's create operation with
`auto_generated = True` and the supplied origin address. -/
def auto_step (tEnv : TicketEnv) (st : AgentState) (prompt ipd : String) :
    PyResult (Option AutoTicket × AgentState) :=
  match issue_process prompt.data with
  | some (iss, imp) =>
    match ticket_process tEnv st
        ⟨some "create", some iss, some imp, some ipd, some true,
         none, none, none, none⟩ with
    | PyResult.ok (st1, m) => PyResult.ok (some ⟨true, m, iss, imp⟩, st1)
    | PyResult.exn e => PyResult.exn e
  | none => PyResult.ok (none, st)

/-- The primary-query dispatch of `CoordinatorAgent.process`
(lines 488-506): `vision` calls the Vision handler (whose
`base64.b64encode` raises when no image bytes are present), `text` calls
the Text handler, and any other kind fans out to Vision, Text and Ticket
in registration order, joining `f"{agent.name}: {response}"` lines with a
newline (the Issue Detection Agent is skipped). -/
def dispatch_step (env : CoordEnv) (tEnv : TicketEnv) (qt : String)
    (inp : CoordInput) (st1 : AgentState) : PyResult (String × AgentState) :=
  if qt = "vision" then
    match inp.image_data with
    | none => PyResult.exn "TypeError"
    | some _ => PyResult.ok (env.visionResponse, st1)
  else if qt = "text" then PyResult.ok (env.textResponse, st1)
  else
    match inp.image_data with
    | none => PyResult.exn "TypeError"
    | some _ =>
      match ticket_process tEnv st1 (toTicketInput inp) with
      | PyResult.exn e => PyResult.exn e
      | PyResult.ok (st2, tmsg) =>
        PyResult.ok
          ("Vision Agent: " ++ env.visionResponse ++ "\n"
            ++ "Text Agent: " ++ env.textResponse ++ "\n"
            ++ "Ticket Agent: " ++ tmsg, st2)

/-- `CoordinatorAgent.process` (lines 459-522) with all four agents
registered as at module initialization (lines 526-535; registration order
Vision, Text, Ticket, Issue Detection).  A `type` of `text` (the default
when the key is absent) runs `auto_step` with
`ip = input_data.get('ip', '127.0.0.1')`; any other kind skips it.  The
primary query then goes through `dispatch_step`, and a coordination record
is appended to the coordinator's own memory log. -/
def coordinator_process (env : CoordEnv) (st : AgentState)
    (mem : List MemEntry) (inp : CoordInput) : PyResult CoordOutcome :=
  let qt := inp.type.getD "text"
  let tEnv : TicketEnv := ⟨env.now, env.saveOk⟩
  match (if qt = "text" then
           auto_step tEnv st (inp.prompt.getD "") (inp.ip.getD "127.0.0.1")
         else PyResult.ok (none, st)) with
  | PyResult.exn e => PyResult.exn e
  | PyResult.ok (autoT, st1) =>
    match dispatch_step env tEnv qt inp st1 with
    | PyResult.exn e => PyResult.exn e
    | PyResult.ok (response, st2) =>
      PyResult.ok
        ⟨st2,
         add_to_memory (isoformat env.now) mem
           (MemData.coordination qt response autoT),
         response, autoT⟩

/- ## Concrete values used by the witness theorems -/

/-- The empty `TicketAgent` state (fresh storage). -/
def emptyState : AgentState := ⟨[], [], []⟩

/-- A fixed instant: 2024-01-02 03:04:05.000006. -/
def now0 : DateTime := ⟨2024, 1, 2, 3, 4, 5, 6⟩

/-- Ticket environment with a healthy store. -/
def tEnv0 : TicketEnv := ⟨now0, true⟩

/-- Ticket environment whose `save_ticket` fails. -/
def tEnvF : TicketEnv := ⟨now0, false⟩

/-- The id `mkTicketId now0` evaluates to. -/
def tid0 : String := "ticket_20240102030405"

/-- The isoformat rendering of `now0`. -/
def iso0 : String := "2024-01-02T03:04:05.000006"

/-- The ticket created from `emptyState` at `now0` in the round-trip
witness. -/
def tk0 : Ticket :=
  ⟨tid0, "printer on fire", "high", "open", iso0, "9.9.9.9", false, iso0⟩

/-- The `TicketAgent` state right after that create. -/
def st1 : AgentState :=
  ⟨[(tid0, tk0)], [(tid0, tk0)], [⟨iso0, MemData.ticket_created tid0⟩]⟩

/-- A stored-but-not-cached ticket for the delete witness. -/
def tkD : Ticket :=
  ⟨"ticket_20230101000000", "old issue", "medium", "open",
   "2023-01-01T00:00:00", "1.1.1.1", false, "2023-01-01T00:00:00"⟩

/-- State whose store holds `tkD` while the cache is empty. -/
def stD : AgentState := ⟨[], [("ticket_20230101000000", tkD)], []⟩

/-- An instant at the start of a second. -/
def nowA : DateTime := ⟨2024, 1, 1, 0, 0, 0, 0⟩

/-- A distinct instant inside the same second as `nowA`. -/
def nowB : DateTime := ⟨2024, 1, 1, 0, 0, 0, 999999⟩

/-- A create request used when exercising a failing store. -/
def inpF : TicketInput :=
  ⟨some "create", some "disk broken", some "high", some "1.2.3.4", none,
   none, none, none, none⟩

/-- A create request with timestamp-independent contents, used by the id
collision counterexample. -/
def inpC : TicketInput :=
  ⟨some "create", some "same text", some "medium", some "5.5.5.5", none,
   none, none, none, none⟩

/-- Coordinator environment for the witness run. -/
def cEnv0 : CoordEnv := ⟨now0, true, "LLM answer", "vision answer"⟩

/-- A text request whose prompt contains the keyword `crash`. -/
def cInp0 : CoordInput :=
  ⟨some "text", some "the server crash", some "10.0.0.5", none, none, none,
   none, none, none, none, none, none⟩

/-- The auto-ticket created while coordinating `cInp0`. -/
def cTk0 : Ticket :=
  ⟨tid0, "Auto-detected issue: the server crash", "medium", "open", iso0,
   "10.0.0.5", true, iso0⟩

/-- The `auto_ticket` payload of that run. -/
def cAt0 : AutoTicket :=
  ⟨true, "Ticket created successfully. Ticket ID: " ++ tid0,
   "Auto-detected issue: the server crash", "medium"⟩

/-- The full outcome of coordinating `cInp0` from `emptyState`. -/
def cOut0 : CoordOutcome :=
  ⟨⟨[(tid0, cTk0)], [(tid0, cTk0)], [⟨iso0, MemData.ticket_created tid0⟩]⟩,
   [⟨iso0, MemData.coordination "text" "LLM answer" (some cAt0)⟩],
   "LLM answer", some cAt0⟩

/- ## Helper lemmas -/

theorem string_eq_of_data {a b : String} (h : a.data = b.data) : a = b := by
  cases a; cases b; simp at h; rw [h]

theorem string_append_left_cancel (a b c : String) : a ++ b = a ++ c ↔ b = c := by
  constructor
  · intro h
    have h2 : (a ++ b).data = (a ++ c).data := congrArg String.data h
    rw [String.data_append, String.data_append] at h2
    exact string_eq_of_data (List.append_cancel_left h2)
  · intro h; rw [h]

theorem lookupA_insertA_self (l : List (String × Ticket)) (k : String)
    (v : Ticket) : lookupA (insertA k v l) k = some v := by
  induction l with
  | nil => simp [insertA, lookupA]
  | cons p t ih =>
    by_cases h : p.1 = k
    · simp [insertA, h, lookupA]
    · simp [insertA, h, lookupA, ih]

theorem lookupA_eq_none_of_not_mem (l : List (String × Ticket)) (k : String)
    (h : k ∉ l.map Prod.fst) : lookupA l k = none := by
  induction l with
  | nil => rfl
  | cons p t ih =>
    obtain ⟨pk, pv⟩ := p
    simp only [List.map_cons, List.mem_cons, not_or] at h
    obtain ⟨h1, h2⟩ := h
    have hne : ¬(pk = k) := fun hh => h1 hh.symm
    simp [lookupA, hne, ih h2]

theorem lookupA_eraseA_self (l : List (String × Ticket)) (k : String)
    (h : (l.map Prod.fst).Nodup) : lookupA (eraseA k l) k = none := by
  induction l with
  | nil => rfl
  | cons p t ih =>
    obtain ⟨pk, pv⟩ := p
    simp only [List.map_cons, List.nodup_cons] at h
    obtain ⟨h1, h2⟩ := h
    by_cases hk : pk = k
    · subst hk
      simp only [eraseA, if_pos rfl]
      exact lookupA_eq_none_of_not_mem t pk (by simpa using h1)
    · simp [eraseA, hk, lookupA, ih h2]

theorem ticket_create_ok (env : TicketEnv) (st : AgentState)
    (iss imp ipv : String) (ag : Option Bool) :
    ticket_process env st
        ⟨some "create", some iss, some imp, some ipv, ag,
         none, none, none, none⟩
      = PyResult.ok
          (⟨insertA (mkTicketId env.now)
              (buildTicket env.now iss imp ipv (ag.getD false)) st.tickets,
            if env.saveOk then
              insertA (mkTicketId env.now)
                (buildTicket env.now iss imp ipv (ag.getD false)) st.store
            else st.store,
            add_to_memory (isoformat env.now) st.memory
              (MemData.ticket_created (mkTicketId env.now))⟩,
           "Ticket created successfully. Ticket ID: " ++ mkTicketId env.now) :=
  rfl

/- ## Claim theorems -/

/-- C5: for every input text flagged by the Issue Detector, the
synthesized issue string is the literal `"Auto-detected issue: "` followed
by the first 200 characters of the input, with `"..."` appended exactly
when the input is longer than 200 characters and no ellipsis otherwise. -/
theorem format_issue_spec (text : List Char)
    (hdet : detect_issue text = true) :
    issue_process text = some (format_issue text, determine_importance text)
    ∧ (text.length ≤ 200 →
        format_issue text = "Auto-detected issue: " ++ String.mk text)
    ∧ (200 < text.length →
        format_issue text
          = "Auto-detected issue: " ++ String.mk (text.take 200) ++ "...") := by
  refine ⟨by simp [issue_process, hdet], fun h => ?_, fun h => ?_⟩
  · rw [format_issue, List.take_of_length_le h, if_neg (by omega)]
    exact String.append_empty _
  · rw [format_issue, if_pos h]

/-- C5 witness: a flagged short input keeps the whole text with no
ellipsis; a flagged 201-character input is truncated to 200 characters
plus an ellipsis. -/
theorem format_issue_witness :
    issue_process "crash".data
      = some (format_issue "crash".data, determine_importance "crash".data)
    ∧ format_issue (List.replicate 195 'a' ++ "crash!".data)
        = "Auto-detected issue: "
            ++ String.mk ((List.replicate 195 'a' ++ "crash!".data).take 200)
            ++ "..." :=
  ⟨(format_issue_spec "crash".data (by decide)).1,
   (format_issue_spec (List.replicate 195 'a' ++ "crash!".data)
      (by set_option maxRecDepth 4000 in decide)).2.2
     (by set_option maxRecDepth 4000 in decide)⟩

/-- C6: `determine_importance` returns `critical` whenever a high-severity
indicator occurs in the lower-cased text (regardless of medium-severity
indicators), else `high` whenever a medium-severity indicator occurs, else
`medium`; it never returns `low`. -/
theorem determine_importance_spec (text : List Char) :
    (severity_high.any (fun k => containsSub (lowerStr text) k) = true →
      determine_importance text = "critical")
    ∧ (severity_high.any (fun k => containsSub (lowerStr text) k) = false →
        severity_medium.any (fun k => containsSub (lowerStr text) k) = true →
        determine_importance text = "high")
    ∧ (severity_high.any (fun k => containsSub (lowerStr text) k) = false →
        severity_medium.any (fun k => containsSub (lowerStr text) k) = false →
        determine_importance text = "medium")
    ∧ determine_importance text ≠ "low" := by
  refine ⟨fun h1 => by simp [determine_importance, h1],
          fun h1 h2 => by simp [determine_importance, h1, h2],
          fun h1 h2 => by simp [determine_importance, h1, h2], ?_⟩
  by_cases h1 : severity_high.any (fun k => containsSub (lowerStr text) k) = true
  · simp [determine_importance, h1]
  · rw [Bool.not_eq_true] at h1
    by_cases h2 :
        severity_medium.any (fun k => containsSub (lowerStr text) k) = true
    · simp [determine_importance, h1, h2]
    · rw [Bool.not_eq_true] at h2
      simp [determine_importance, h1, h2]

/-- C6 witness: a text with both a high and a medium indicator classifies
as `critical`, a medium-only text as `high`, an indicator-free text as
`medium`, and none of them is `low`. -/
theorem determine_importance_witness :
    determine_importance "urgent and important outage".data = "critical"
    ∧ determine_importance "important outage".data = "high"
    ∧ determine_importance "the app is broken".data = "medium"
    ∧ determine_importance "the app is broken".data ≠ "low" :=
  ⟨(determine_importance_spec "urgent and important outage".data).1 (by decide),
   (determine_importance_spec "important outage".data).2.1 (by decide)
     (by decide),
   (determine_importance_spec "the app is broken".data).2.2.1 (by decide)
     (by decide),
   (determine_importance_spec "the app is broken".data).2.2.2⟩

/-- C7: `detect_issue` returns true for any text containing a configured
keyword in its lower-cased form, and false for any text containing none of
the keywords and matching none of the error-phrase patterns. -/
theorem detect_issue_spec (text : List Char) :
    (∀ k ∈ issue_keywords,
      containsSub (lowerStr text) k = true → detect_issue text = true)
    ∧ ((∀ k ∈ issue_keywords, containsSub (lowerStr text) k = false) →
       (∀ m ∈ error_patterns, reSearch m (lowerStr text) = false) →
       detect_issue text = false) := by
  constructor
  · intro k hk hks
    have hany : issue_keywords.any (fun k => containsSub (lowerStr text) k)
        = true := List.any_eq_true.mpr ⟨k, hk, hks⟩
    simp [detect_issue, hany]
  · intro h1 h2
    have ha : issue_keywords.any (fun k => containsSub (lowerStr text) k)
        = false := by
      rw [List.any_eq_false]; intro k hk; simp [h1 k hk]
    have hb : error_patterns.any (fun m => reSearch m (lowerStr text))
        = false := by
      rw [List.any_eq_false]; intro m hm; simp [h2 m hm]
    simp [detect_issue, ha, hb]

/-- C7 witness: a text containing the configured keyword `crash` (in upper
case, exercising the lower-casing) is flagged; a keyword- and pattern-free
text is not. -/
theorem detect_issue_witness :
    detect_issue "The app will CRASH today".data = true
    ∧ detect_issue "all good here".data = false :=
  ⟨(detect_issue_spec "The app will CRASH today".data).1 "crash".data
     (by decide) (by decide),
   (detect_issue_spec "all good here".data).2 (by decide) (by decide)⟩

/-- C3 counterexample: two distinct create operations — run at the
distinct instants `nowA` and `nowB`, which fall inside the same clock
second — generate the same ticket id, and the whole create acknowledgement
is identical. -/
theorem ticket_id_unique_counterexample :
    nowA ≠ nowB
    ∧ mkTicketId nowA = mkTicketId nowB
    ∧ procMsg (ticket_process ⟨nowA, true⟩ emptyState inpC)
        = procMsg (ticket_process ⟨nowB, true⟩ emptyState inpC) := by
  decide

/-- C3 amended: ids generated by create operations are distinct exactly
when the creation instants differ in their second-granularity
`%Y%m%d%H%M%S` rendering; creates whose timestamps agree to the second
collide regardless of the ticket contents. -/
theorem ticket_id_unique_amended (d1 d2 : DateTime) (iss1 imp1 ip1 : String)
    (a1 : Bool) (iss2 imp2 ip2 : String) (a2 : Bool) :
    ((buildTicket d1 iss1 imp1 ip1 a1).ticket_id
        = (buildTicket d2 iss2 imp2 ip2 a2).ticket_id)
      ↔ strftimeYmdHMS d1 = strftimeYmdHMS d2 := by
  show mkTicketId d1 = mkTicketId d2 ↔ _
  unfold mkTicketId
  exact string_append_left_cancel _ _ _

/-- C2 counterexample: with a store whose save operation fails
(`saveOk = false`), create still returns the success confirmation
containing the new id, while the store is left unchanged. -/
theorem create_ack_counterexample :
    tEnvF.saveOk = false
    ∧ procMsg (ticket_process tEnvF emptyState inpF)
        = some ("Ticket created successfully. Ticket ID: " ++ tid0)
    ∧ procStore (ticket_process tEnvF emptyState inpF) = some [] := by
  decide

/-- C2 amended: create acknowledges unconditionally — it returns the
success confirmation containing the new id whether or not the store's
save operation succeeded, and on a failed save the store is unchanged
(the boolean result of `save_ticket` is ignored). -/
theorem create_ack_amended (env : TicketEnv) (st : AgentState)
    (iss imp ipv : String) (ag : Option Bool) :
    procMsg (ticket_process env st
        ⟨some "create", some iss, some imp, some ipv, ag,
         none, none, none, none⟩)
      = some ("Ticket created successfully. Ticket ID: " ++ mkTicketId env.now)
    ∧ (env.saveOk = false →
        procStore (ticket_process env st
            ⟨some "create", some iss, some imp, some ipv, ag,
             none, none, none, none⟩)
          = some st.store) := by
  constructor
  · rw [ticket_create_ok]; rfl
  · intro h; rw [ticket_create_ok]; simp [procStore, h]

/-- C2 witness: the amended statement at a concrete failing store. -/
theorem create_ack_witness :
    procMsg (ticket_process tEnvF emptyState
        ⟨some "create", some "disk broken", some "high", some "1.2.3.4",
         none, none, none, none, none⟩)
      = some ("Ticket created successfully. Ticket ID: "
                ++ mkTicketId tEnvF.now)
    ∧ procStore (ticket_process tEnvF emptyState
        ⟨some "create", some "disk broken", some "high", some "1.2.3.4",
         none, none, none, none, none⟩)
      = some emptyState.store :=
  ⟨(create_ack_amended tEnvF emptyState "disk broken" "high" "1.2.3.4"
      none).1,
   (create_ack_amended tEnvF emptyState "disk broken" "high" "1.2.3.4"
      none).2 rfl⟩

/-- C10: an explicit action outside the five supported ones makes
`ticket_process` return `"Invalid action"` with the state (cache, store
and memory log) unchanged, while an absent action is treated exactly as a
create request. -/
theorem invalid_action_spec (env : TicketEnv) (st : AgentState) :
    (∀ inp : TicketInput, ∀ a : String, inp.action = some a →
      a ∉ (["create", "list", "get", "delete", "search"] : List String) →
      ticket_process env st inp = PyResult.ok (st, "Invalid action"))
    ∧ (∀ iss imp ipv ag tid q lim off,
        ticket_process env st ⟨none, iss, imp, ipv, ag, tid, q, lim, off⟩
          = ticket_process env st
              ⟨some "create", iss, imp, ipv, ag, tid, q, lim, off⟩) := by
  constructor
  · intro inp a ha hna
    have h5 : ¬(a = "create") ∧ ¬(a = "list") ∧ ¬(a = "get")
        ∧ ¬(a = "delete") ∧ ¬(a = "search") := by simpa using hna
    obtain ⟨h1, h2, h3, h4, h5⟩ := h5
    simp [ticket_process, ha, h1, h2, h3, h4, h5]
  · intro iss imp ipv ag tid q lim off
    rfl

/-- C10 witness: the action `update` is rejected with the state intact,
and omitting the action key behaves as a create request. -/
theorem invalid_action_witness :
    ticket_process tEnv0 st1
        ⟨some "update", none, none, none, none, none, none, none, none⟩
      = PyResult.ok (st1, "Invalid action")
    ∧ ticket_process tEnv0 st1
        ⟨none, some "x", some "low", some "2.2.2.2", none,
         none, none, none, none⟩
      = ticket_process tEnv0 st1
          ⟨some "create", some "x", some "low", some "2.2.2.2", none,
           none, none, none, none⟩ :=
  ⟨(invalid_action_spec tEnv0 st1).1 _ "update" rfl (by decide),
   (invalid_action_spec tEnv0 st1).2 (some "x") (some "low") (some "2.2.2.2")
     none none none none none⟩

/-- C9: deleting an id that exists in the persistent store but not in the
in-memory cache still succeeds — it returns the success string (not
`"Ticket not found"`) and removes the persisted record. -/
theorem delete_store_only_spec (env : TicketEnv) (st : AgentState)
    (tid : String) (t : Ticket)
    (hwf : (st.store.map Prod.fst).Nodup)
    (hc : lookupA st.tickets tid = none)
    (hs : lookupA st.store tid = some t) :
    procMsg (ticket_process env st
        ⟨some "delete", none, none, none, none, some tid, none, none, none⟩)
      = some ("Ticket " ++ tid ++ " deleted successfully")
    ∧ procStoreLookup (ticket_process env st
        ⟨some "delete", none, none, none, none, some tid, none, none, none⟩)
        tid
      = some none := by
  have hbr : ticket_process env st
      ⟨some "delete", none, none, none, none, some tid, none, none, none⟩
      = PyResult.ok
          (⟨st.tickets, eraseA tid st.store,
            add_to_memory (isoformat env.now) st.memory
              (MemData.ticket_deleted tid)⟩,
           "Ticket " ++ tid ++ " deleted successfully") := by
    simp [ticket_process, hc, hs]
  rw [hbr]
  exact ⟨rfl, by simp [procStoreLookup, lookupA_eraseA_self _ _ hwf]⟩

/-- C9 witness: a concrete state whose store holds a ticket the cache does
not. -/
theorem delete_store_only_witness :
    procMsg (ticket_process tEnv0 stD
        ⟨some "delete", none, none, none, none,
         some "ticket_20230101000000", none, none, none⟩)
      = some ("Ticket " ++ "ticket_20230101000000" ++ " deleted successfully")
    ∧ procStoreLookup (ticket_process tEnv0 stD
        ⟨some "delete", none, none, none, none,
         some "ticket_20230101000000", none, none, none⟩)
        "ticket_20230101000000"
      = some none :=
  delete_store_only_spec tEnv0 stD "ticket_20230101000000" tkD
    (by decide) (by decide) (by decide)

/-- C8: a ticket created via create and immediately fetched via get with
the id just returned yields exactly the created record — same issue,
importance, status, origin, auto_generated and created_at. -/
theorem create_get_roundtrip (env : TicketEnv) (st : AgentState)
    (iss imp ipv : String) (ag : Option Bool) (st2 : AgentState)
    (msg : String)
    (hok : ticket_process env st
        ⟨some "create", some iss, some imp, some ipv, ag,
         none, none, none, none⟩ = PyResult.ok (st2, msg)) :
    lookupA st2.tickets (mkTicketId env.now)
      = some (buildTicket env.now iss imp ipv (ag.getD false))
    ∧ ticket_process env st2
        ⟨some "get", none, none, none, none, some (mkTicketId env.now),
         none, none, none⟩
      = PyResult.ok
          (st2, ticketToJson (buildTicket env.now iss imp ipv (ag.getD false)))
    ∧ (buildTicket env.now iss imp ipv (ag.getD false)).issue = iss
    ∧ (buildTicket env.now iss imp ipv (ag.getD false)).importance = imp
    ∧ (buildTicket env.now iss imp ipv (ag.getD false)).status = "open"
    ∧ (buildTicket env.now iss imp ipv (ag.getD false)).ip = ipv
    ∧ (buildTicket env.now iss imp ipv (ag.getD false)).auto_generated
        = ag.getD false
    ∧ (buildTicket env.now iss imp ipv (ag.getD false)).created_at
        = isoformat env.now := by
  rw [ticket_create_ok] at hok
  injection hok with hpair
  rw [Prod.mk.injEq] at hpair
  obtain ⟨hst, hmsg⟩ := hpair
  subst hst
  have hl : lookupA
      (insertA (mkTicketId env.now)
        (buildTicket env.now iss imp ipv (ag.getD false)) st.tickets)
      (mkTicketId env.now)
      = some (buildTicket env.now iss imp ipv (ag.getD false)) :=
    lookupA_insertA_self _ _ _
  refine ⟨hl, ?_, rfl, rfl, rfl, rfl, rfl, rfl⟩
  simp [ticket_process, hl]

/-- C8 witness: create from the empty state, then get the returned id. -/
theorem create_get_roundtrip_witness :
    lookupA st1.tickets (mkTicketId tEnv0.now)
      = some (buildTicket tEnv0.now "printer on fire" "high" "9.9.9.9" false)
    ∧ ticket_process tEnv0 st1
        ⟨some "get", none, none, none, none, some (mkTicketId tEnv0.now),
         none, none, none⟩
      = PyResult.ok
          (st1, ticketToJson
            (buildTicket tEnv0.now "printer on fire" "high" "9.9.9.9" false)) := by
  have h := create_get_roundtrip tEnv0 emptyState "printer on fire" "high"
    "9.9.9.9" none st1 ("Ticket created successfully. Ticket ID: " ++ tid0)
    (by decide)
  exact ⟨h.1, h.2.1⟩

/- ## Memory-bound lemmas -/

theorem add_to_memory_len_le (now : String) (mem : List MemEntry)
    (d : MemData) (h : mem.length ≤ 100) :
    (add_to_memory now mem d).length ≤ 100 := by
  simp only [add_to_memory]
  by_cases hc : 100 < (mem ++ [MemEntry.mk now d]).length
  · rw [if_pos hc]
    simp only [List.length_drop]
    omega
  · rw [if_neg hc]
    simp at hc
    simp
    omega

theorem add_to_memory_eq_drop (now : String) (mem : List MemEntry)
    (d : MemData) (h : mem.length ≤ 100) :
    add_to_memory now mem d
      = (mem ++ [MemEntry.mk now d]).drop ((mem.length + 1) - 100) := by
  simp only [add_to_memory]
  by_cases hc : 100 < (mem ++ [MemEntry.mk now d]).length
  · rw [if_pos hc]
    congr 1
    simp
  · rw [if_neg hc]
    simp at hc
    rw [show (mem.length + 1) - 100 = 0 by omega, List.drop_zero]

theorem foldl_add_to_memory (pairs : List (String × MemData)) :
    ∀ mem : List MemEntry, mem.length ≤ 100 →
      pairs.foldl (fun m p => add_to_memory p.1 m p.2) mem
        = (mem ++ pairs.map (fun p => MemEntry.mk p.1 p.2)).drop
            ((mem.length + pairs.length) - 100) := by
  induction pairs with
  | nil =>
    intro mem h
    simp [Nat.sub_eq_zero_of_le h]
  | cons p ps ih =>
    intro mem h
    rw [List.foldl_cons, ih _ (add_to_memory_len_le _ _ _ h),
        add_to_memory_eq_drop _ _ _ h]
    have hk : (mem.length + 1) - 100
        ≤ (mem ++ [MemEntry.mk p.1 p.2]).length := by
      simp
      omega
    rw [← List.drop_append_of_le_length hk, List.drop_drop]
    simp only [List.map_cons, List.append_assoc, List.singleton_append]
    congr 1
    simp only [List.length_drop, List.length_append, List.length_cons,
      List.length_map]
    simp
    omega

theorem foldl_test_add (ds : List MemData) :
    ∀ acc, ds.foldl test_add_to_memory acc = acc ++ ds := by
  induction ds with
  | nil => intro acc; simp
  | cons d t ih =>
    intro acc
    rw [List.foldl_cons, ih]
    simp [test_add_to_memory]

/-- C4 counterexample: the `test.py` base class appends without eviction —
after 101 `add_to_memory` calls its log holds 101 entries, not 100. -/
theorem memory_bound_counterexample :
    (run_test_add_to_memory
        (List.replicate 101 (MemData.ticket_created "x"))).length = 101 := by
  set_option maxRecDepth 10000 in decide

/-- C4 amended: in `multi_agent_system.py` every agent's log is bounded at
100 entries with FIFO eviction — after more than 100 appends the log holds
exactly the 100 most recent entries; the duplicate `Agent` base class in
`test.py`, however, appends without bound, so its agents retain every
entry. -/
theorem memory_bound_amended :
    (∀ pairs : List (String × MemData), 100 < pairs.length →
      (run_add_to_memory pairs).length = 100
      ∧ run_add_to_memory pairs
          = (pairs.map (fun p => MemEntry.mk p.1 p.2)).drop
              (pairs.length - 100))
    ∧ (∀ ds : List MemData, run_test_add_to_memory ds = ds) := by
  constructor
  · intro pairs hlen
    have h := foldl_add_to_memory pairs [] (by simp)
    simp only [List.nil_append, List.length_nil, Nat.zero_add] at h
    constructor
    · simp only [run_add_to_memory]
      rw [h]
      simp only [List.length_drop, List.length_map]
      omega
    · simp only [run_add_to_memory]
      exact h
  · intro ds
    simp only [run_test_add_to_memory]
    rw [foldl_test_add]
    simp

/-- C4 witness: 101 appends through the bounded implementation leave
exactly 100 entries, while the unbounded variant keeps a single append. -/
theorem memory_bound_witness :
    (run_add_to_memory
        (List.replicate 101 ("t", MemData.ticket_created "x"))).length = 100
    ∧ run_test_add_to_memory [MemData.ticket_created "x"]
        = [MemData.ticket_created "x"] :=
  ⟨(memory_bound_amended.1
      (List.replicate 101 ("t", MemData.ticket_created "x"))
      (by simp)).1,
   memory_bound_amended.2 [MemData.ticket_created "x"]⟩

/- ## Coordinator lemmas -/

theorem auto_step_detected (tEnv : TicketEnv) (st : AgentState)
    (p ipd : String) (hd : detect_issue p.data = true) :
    auto_step tEnv st p ipd
      = PyResult.ok
          (some ⟨true,
              "Ticket created successfully. Ticket ID: " ++ mkTicketId tEnv.now,
              format_issue p.data, determine_importance p.data⟩,
           ⟨insertA (mkTicketId tEnv.now)
              (buildTicket tEnv.now (format_issue p.data)
                (determine_importance p.data) ipd true) st.tickets,
            if tEnv.saveOk then
              insertA (mkTicketId tEnv.now)
                (buildTicket tEnv.now (format_issue p.data)
                  (determine_importance p.data) ipd true) st.store
            else st.store,
            add_to_memory (isoformat tEnv.now) st.memory
              (MemData.ticket_created (mkTicketId tEnv.now))⟩) := by
  unfold auto_step issue_process
  rw [if_pos hd]
  rfl

theorem auto_step_none (tEnv : TicketEnv) (st : AgentState) (p ipd : String)
    (hd : detect_issue p.data = false) :
    auto_step tEnv st p ipd = PyResult.ok (none, st) := by
  unfold auto_step issue_process
  rw [if_neg (by simp [hd])]

theorem coordinator_text_detected (env : CoordEnv) (st : AgentState)
    (mem : List MemEntry) (inp : CoordInput)
    (hq : inp.type.getD "text" = "text")
    (hd : detect_issue (inp.prompt.getD "").data = true) :
    coordinator_process env st mem inp
      = PyResult.ok
          ⟨⟨insertA (mkTicketId env.now)
              (buildTicket env.now (format_issue (inp.prompt.getD "").data)
                (determine_importance (inp.prompt.getD "").data)
                (inp.ip.getD "127.0.0.1") true) st.tickets,
            if env.saveOk then
              insertA (mkTicketId env.now)
                (buildTicket env.now (format_issue (inp.prompt.getD "").data)
                  (determine_importance (inp.prompt.getD "").data)
                  (inp.ip.getD "127.0.0.1") true) st.store
            else st.store,
            add_to_memory (isoformat env.now) st.memory
              (MemData.ticket_created (mkTicketId env.now))⟩,
           add_to_memory (isoformat env.now) mem
             (MemData.coordination "text" env.textResponse
               (some ⟨true,
                  "Ticket created successfully. Ticket ID: "
                    ++ mkTicketId env.now,
                  format_issue (inp.prompt.getD "").data,
                  determine_importance (inp.prompt.getD "").data⟩)),
           env.textResponse,
           some ⟨true,
              "Ticket created successfully. Ticket ID: " ++ mkTicketId env.now,
              format_issue (inp.prompt.getD "").data,
              determine_importance (inp.prompt.getD "").data⟩⟩ := by
  simp only [coordinator_process, hq]
  rw [auto_step_detected ⟨env.now, env.saveOk⟩ st (inp.prompt.getD "")
    (inp.ip.getD "127.0.0.1") hd]
  rfl

theorem coordinator_text_undetected (env : CoordEnv) (st : AgentState)
    (mem : List MemEntry) (inp : CoordInput)
    (hq : inp.type.getD "text" = "text")
    (hd : detect_issue (inp.prompt.getD "").data = false) :
    coordinator_process env st mem inp
      = PyResult.ok
          ⟨st,
           add_to_memory (isoformat env.now) mem
             (MemData.coordination "text" env.textResponse none),
           env.textResponse, none⟩ := by
  simp only [coordinator_process, hq]
  rw [auto_step_none ⟨env.now, env.saveOk⟩ st (inp.prompt.getD "")
    (inp.ip.getD "127.0.0.1") hd]
  rfl

theorem coordinator_nontext (env : CoordEnv) (st : AgentState)
    (mem : List MemEntry) (inp : CoordInput) (r : CoordOutcome)
    (hq : ¬inp.type.getD "text" = "text")
    (hok : coordinator_process env st mem inp = PyResult.ok r) :
    r.auto_ticket = none := by
  simp only [coordinator_process, if_neg hq] at hok
  cases hD : dispatch_step env ⟨env.now, env.saveOk⟩ (inp.type.getD "text")
      inp st with
  | exn e =>
    rw [hD] at hok
    exact PyResult.noConfusion hok
  | ok pair =>
    obtain ⟨resp, st2⟩ := pair
    rw [hD] at hok
    have h2 : PyResult.ok
        (⟨st2,
          add_to_memory (isoformat env.now) mem
            (MemData.coordination (inp.type.getD "text") resp none),
          resp, none⟩ : CoordOutcome) = PyResult.ok r := hok
    injection h2 with h
    rw [← h]

/-- C1: for a coordinator request of kind `text` whose prompt the Issue
Detector flags, the result carries an `auto_ticket` payload with
`created = true`, the create operation's message, and the detected issue
and importance, and the Ticket Handler's cache now holds the
auto-generated ticket built with the request's origin address (defaulting
to `127.0.0.1`); for an unflagged text prompt and for every non-text
request the `auto_ticket` key is absent. -/
theorem coordinator_auto_ticket_spec (env : CoordEnv) (st : AgentState)
    (mem : List MemEntry) (inp : CoordInput) (r : CoordOutcome)
    (hok : coordinator_process env st mem inp = PyResult.ok r) :
    (inp.type.getD "text" = "text" →
      (detect_issue (inp.prompt.getD "").data = true →
        r.auto_ticket
          = some ⟨true,
              "Ticket created successfully. Ticket ID: " ++ mkTicketId env.now,
              format_issue (inp.prompt.getD "").data,
              determine_importance (inp.prompt.getD "").data⟩
        ∧ lookupA r.ticketSt.tickets (mkTicketId env.now)
            = some (buildTicket env.now
                (format_issue (inp.prompt.getD "").data)
                (determine_importance (inp.prompt.getD "").data)
                (inp.ip.getD "127.0.0.1") true))
      ∧ (detect_issue (inp.prompt.getD "").data = false →
          r.auto_ticket = none))
    ∧ (inp.type.getD "text" ≠ "text" → r.auto_ticket = none) := by
  constructor
  · intro hq
    constructor
    · intro hd
      rw [coordinator_text_detected env st mem inp hq hd] at hok
      injection hok with h
      rw [← h]
      exact ⟨rfl, lookupA_insertA_self _ _ _⟩
    · intro hd
      rw [coordinator_text_undetected env st mem inp hq hd] at hok
      injection hok with h
      rw [← h]
  · intro hq
    exact coordinator_nontext env st mem inp r hq hok

/-- C1 witness: a concrete text request containing `crash` is coordinated
from the empty state; the outcome carries the auto_ticket payload and the
cached auto-generated ticket. -/
theorem coordinator_auto_ticket_witness :
    cOut0.auto_ticket
      = some ⟨true,
          "Ticket created successfully. Ticket ID: " ++ mkTicketId cEnv0.now,
          format_issue ((cInp0.prompt).getD "").data,
          determine_importance ((cInp0.prompt).getD "").data⟩
    ∧ lookupA cOut0.ticketSt.tickets (mkTicketId cEnv0.now)
        = some (buildTicket cEnv0.now
            (format_issue ((cInp0.prompt).getD "").data)
            (determine_importance ((cInp0.prompt).getD "").data)
            ((cInp0.ip).getD "127.0.0.1") true) :=
  ((coordinator_auto_ticket_spec cEnv0 emptyState [] cInp0 cOut0
      (by decide)).1 (by decide)).1 (by decide)
